import Mathlib

/-!
Verification development for the remote-job-finder scraper
(`src/scraper/job_scraper.py`, class `RemoteJobScraper`).

The pipeline is shallowly embedded: Python strings become `String`
(reasoned about through their `List Char` data, matching Python's
code-point semantics for slicing, length and substring tests); the
external HTTP transport and HTML-query collaborators are modelled as
explicit inputs (per-attempt outcome lists for the transport, query-result
functions/records for the HTML library); `json.dump`/`json.load` are
modelled as an inverse pair on a JSON syntax tree, so serialization facts
are stated on the tree the scraper builds.
-/

set_option autoImplicit false

namespace RemoteJobFinder

/-! ## Character-list utilities (Python string operations) -/

/-- Does `hay` start with `pat`?  Models Python `str.startswith` and is the
building block for the substring test. -/
def startsWithCh : List Char → List Char → Bool
  | _, [] => true
  | [], _ :: _ => false
  | a :: as, b :: bs => a == b && startsWithCh as bs

/-- Does `hay` contain `pat` as a contiguous substring?  Models Python's
`pat in hay` on strings (argument order: `containsSub pat hay`). -/
def containsSub (pat : List Char) : List Char → Bool
  | [] => pat.isEmpty
  | a :: t => startsWithCh (a :: t) pat || containsSub pat t

/-- Does `hay` end with `pat`?  Used to state where the continuation
marker sits in a stored description. -/
def endsWithCh (pat : List Char) : List Char → Bool
  | [] => pat.isEmpty
  | a :: t => (a :: t == pat) || endsWithCh pat t

/-- Models Python `str.lower` for the alphabet the keyword lists use:
ASCII letters are lowered, all other characters (including the Japanese
keywords) are unchanged. -/
def toLowerCh (s : List Char) : List Char :=
  s.map Char.toLower

/-! ## Data model: JobRecord (the dict built by `extract_job_details`) -/

/-- One job record, with exactly the nine keys of the Python dict
(`title`, `company`, `category`, `description`, `link`, `is_remote`,
`is_own_pc_ok`, `scraped_at`, `source`). -/
structure JobRecord where
  title : String
  company : String
  category : String
  description : String
  link : String
  is_remote : Bool
  is_own_pc_ok : Bool
  scraped_at : String
  source : String
deriving DecidableEq, Repr

/-! ## Fetcher: `get_page` (lines 48-61) -/

/-- The transport failure surfaced after retry exhaustion; the spec's
taxonomy names it `FetchError` (the Python code re-raises the underlying
`requests.RequestException`, carried here as its message). -/
abbrev FetchError := String

/-- Observable behaviour of one `get_page` call: `result` is `none` when
the Python loop body never runs and the function falls through returning
`None`, `some (.ok r)` when a response is returned, `some (.error e)` when
the exception propagates; `sleeps` lists the backoff delays in order;
`attempts` counts the HTTP attempts actually made. -/
structure FetchTrace (ε ρ : Type) where
  result : Option (Except ε ρ)
  sleeps : List Nat
  attempts : Nat

/-- The loop `for attempt in range(retries)` of `get_page`, started at
index `attempt`.  The remaining attempts' transport outcomes are given as
a list (its length is the remaining retry budget, so `retries = 3` is a
three-element list and the Python guard `attempt < retries - 1` is
exactly "the tail is nonempty").  A successful attempt returns the
response; a failed non-final attempt sleeps `2 ^ attempt` and continues;
a failed final attempt re-raises. -/
def get_page_from {ε ρ : Type} (attempt : Nat) : List (Except ε ρ) → FetchTrace ε ρ
  | [] => ⟨none, [], 0⟩
  | o :: rest =>
    match o with
    | .ok r => ⟨some (.ok r), [], 1⟩
    | .error e =>
      match rest with
      | [] => ⟨some (.error e), [], 1⟩
      | r :: rs =>
        let t := get_page_from (attempt + 1) (r :: rs)
        ⟨t.result, 2 ^ attempt :: t.sleeps, t.attempts + 1⟩

/-- `get_page(url, retries)`: `outcomes` holds the transport outcome each
of the `retries` attempts would observe (so `outcomes.length` is the
retry budget; a budget of `0` — Python `range(0)`, also any negative
budget — is the empty list). -/
def get_page {ε ρ : Type} (outcomes : List (Except ε ρ)) : FetchTrace ε ρ :=
  get_page_from 0 outcomes

/-! ## Record builder: `extract_job_details` (lines 63-112) -/

/-- One listing element on the primary path, as seen through the HTML
library's query interface (the external BeautifulSoup collaborator):
each field is the stripped text (or href) the corresponding `find` call
in `extract_job_details` yields, `none` when that query finds nothing,
and `full_text` is `element.get_text()`. -/
structure Element where
  title_class_text : Option String
  heading_text : Option String
  company_text : Option String
  link_href : Option String
  category_text : Option String
  desc_text : Option String
  full_text : String

/-- The fixed base URL (`self.base_url`). -/
def base_url : String := "https://www.reworker.jp"

/-- Models the external `urllib.parse.urljoin` collaborator on the inputs
the scraper feeds it: an absolute href is kept, a relative one is resolved
against the base. -/
def urljoin (base href : String) : String :=
  if href.startsWith "http" then href else base ++ "/" ++ href

/-- The remote-work keyword list (`remote_keywords`, line 90). -/
def remote_keywords : List (List Char) :=
  ["在宅".data, "リモート".data, "remote".data, "テレワーク".data,
   "自宅".data, "フル在宅".data, "完全在宅".data]

/-- The own-equipment keyword list (`pc_keywords`, line 91). -/
def pc_keywords : List (List Char) :=
  ["自宅pc".data, "自宅パソコン".data, "pc持参".data, "pc環境".data,
   "機材貸与なし".data]

/-- The loaner-equipment term (`'貸与' not in full_text`, line 94). -/
def loan_keyword : List Char := "貸与".data

/-- The continuation marker appended to long descriptions (line 100). -/
def marker : List Char := "...".data

/-- `description[:200] + "..." if len(description) > 200 else description`
(line 100), on the code-point sequence. -/
def truncate200 (d : List Char) : List Char :=
  if 200 < d.length then d.take 200 ++ marker else d

/-- `truncate200` packaged on `String`. -/
def truncStr (s : String) : String :=
  ⟨truncate200 s.data⟩

/-- The success path of `extract_job_details`: builds the record from the
element's query results, classifying on the lower-cased `get_text` of the
whole element.  `now` is `datetime.now().isoformat()`. -/
def extract_job_details (e : Element) (now : String) : JobRecord :=
  let title :=
    match e.title_class_text with
    | some t => t
    | none =>
      match e.heading_text with
      | some t => t
      | none => "タイトル不明"
  let company := e.company_text.getD "会社名不明"
  let link :=
    match e.link_href with
    | some h => urljoin base_url h
    | none => ""
  let category := e.category_text.getD "カテゴリ不明"
  let description := e.desc_text.getD ""
  let lowered := toLowerCh e.full_text.data
  let is_remote := remote_keywords.any (fun k => containsSub k lowered)
  let is_own_pc :=
    pc_keywords.any (fun k => containsSub k lowered) || !containsSub loan_keyword lowered
  { title := title
    company := company
    category := category
    description := truncStr description
    link := link
    is_remote := is_remote
    is_own_pc_ok := is_own_pc
    scraped_at := now
    source := "Reworker" }

/-! ## Listing extractor: selector loop of `scrape_job_listings` (lines 124-140) -/

/-- The fixed ordered selector-pattern list (`job_selectors`). -/
def job_selectors : List String :=
  ["[class*=\"job\"]", "[class*=\"card\"]", "[class*=\"item\"]",
   "[class*=\"list\"]", "article", ".post", ".entry"]

/-- The loop `for selector in job_selectors: elements = soup.select(selector);
if elements: job_elements.extend(elements); break` — starting from an empty
`job_elements`, the result is the element list of the first selector that
matches at least once.  `select` is the document seen through the HTML
library's CSS-query interface. -/
def selectFirstMatch {α : Type} (select : String → List α) : List String → List α
  | [] => []
  | s :: rest =>
    match select s with
    | [] => selectFirstMatch select rest
    | e :: es => e :: es

/-- Listing extraction on the primary path: the selector loop run over the
fixed pattern list. -/
def extract_listing_elements {α : Type} (select : String → List α) : List α :=
  selectFirstMatch select job_selectors

/-! ## Filter and sample injection (lines 180-225, 252-266) -/

/-- `filter_remote_jobs` (lines 221-225):
`[job for job in self.jobs if job['is_remote'] and job['is_own_pc_ok']]`. -/
def filter_remote_jobs (jobs : List JobRecord) : List JobRecord :=
  jobs.filter (fun job => job.is_remote && job.is_own_pc_ok)

/-- The three hardcoded sample records of `add_sample_jobs` (lines 182-216);
`now` is `datetime.now().isoformat()`. -/
def sample_jobs (now : String) : List JobRecord :=
  [{ title := "フルリモート Webエンジニア募集"
     company := "テックスタートアップ株式会社"
     category := "エンジニア・開発"
     description := "フルリモート勤務可能。React/Node.jsを使った自社プロダクト開発。自宅PC使用OK。"
     link := "https://example.com/job1"
     is_remote := true
     is_own_pc_ok := true
     scraped_at := now
     source := "Sample Data" },
   { title := "在宅ライター・コンテンツ作成"
     company := "デジタルマーケティング株式会社"
     category := "ライティング・編集"
     description := "完全在宅勤務。SEO記事作成、自宅環境での作業が中心。PC環境は各自準備。"
     link := "https://example.com/job2"
     is_remote := true
     is_own_pc_ok := true
     scraped_at := now
     source := "Sample Data" },
   { title := "リモート カスタマーサポート"
     company := "グローバルテック合同会社"
     category := "カスタマーサポート"
     description := "フルリモート勤務。チャット・メールサポート対応。自宅PC利用可能。"
     link := "https://example.com/job3"
     is_remote := true
     is_own_pc_ok := true
     scraped_at := now
     source := "Sample Data" }]

/-- The record list `run` hands to `save_to_json` (lines 258-266):
`scraped` is `self.jobs` after `scrape_job_listings`; when fewer than 3
records were scraped, `add_sample_jobs` extends the list with the three
samples, otherwise the list is untouched. -/
def run_records (scraped : List JobRecord) (now : String) : List JobRecord :=
  if scraped.length < 3 then scraped ++ sample_jobs now else scraped

/-! ## Serializer: `save_to_json` (lines 227-250) -/

/-- JSON syntax tree for the output document. -/
inductive Json where
  | str : String → Json
  | num : Nat → Json
  | bool : Bool → Json
  | arr : List Json → Json
  | obj : List (String × Json) → Json

/-- The JSON object `json.dump` writes for one record. -/
def encode_job (j : JobRecord) : Json :=
  Json.obj
    [("title", Json.str j.title),
     ("company", Json.str j.company),
     ("category", Json.str j.category),
     ("description", Json.str j.description),
     ("link", Json.str j.link),
     ("is_remote", Json.bool j.is_remote),
     ("is_own_pc_ok", Json.bool j.is_own_pc_ok),
     ("scraped_at", Json.str j.scraped_at),
     ("source", Json.str j.source)]

/-- `list(set(job['source'] for job in filtered_jobs))` — the distinct
source tags (Python's set order is unspecified; first-occurrence order is
one refinement of it). -/
def source_sites (filtered : List JobRecord) : List String :=
  (filtered.map (fun j => j.source)).dedup

/-- The `output_data` document of `save_to_json` (lines 232-240), built
over the already-filtered record list; `now` is the metadata timestamp. -/
def output_data (filtered : List JobRecord) (now : String) : Json :=
  Json.obj
    [("metadata", Json.obj
        [("scraped_at", Json.str now),
         ("total_jobs", Json.num filtered.length),
         ("source_sites", Json.arr ((source_sites filtered).map Json.str)),
         ("scraper_version", Json.str "1.0.0")]),
     ("jobs", Json.arr (filtered.map encode_job))]

/-- `save_to_json` (lines 227-250): filters, builds the document, and
attempts the file write (`write` models the external file-system
collaborator and `json.dump`, failing with the I/O error message).  On
success the filename is returned; the `except` branch catches the failure,
logs it and yields `None` — the `none` result is exactly the spec's
`SerializeError` outcome, distinguishable from every success. -/
def save_to_json (jobs : List JobRecord) (now filename : String)
    (write : Json → Except String Unit) : Option String :=
  let filtered := filter_remote_jobs jobs
  match write (output_data filtered now) with
  | .ok _ => some filename
  | .error _ => none

/-- The document `run` serializes: sample injection on the pre-filter
count, then filtering, then the output document. -/
def run_output (scraped : List JobRecord) (now : String) : Json :=
  output_data (filter_remote_jobs (run_records scraped now)) now

/-! ## Parsing the written document (`json.load` side of the round trip) -/

/-- String payload of a JSON value. -/
def as_str : Json → Option String
  | .str s => some s
  | _ => none

/-- Boolean payload of a JSON value. -/
def as_bool : Json → Option Bool
  | .bool b => some b
  | _ => none

/-- Numeric payload of a JSON value. -/
def as_num : Json → Option Nat
  | .num n => some n
  | _ => none

/-- Array payload of a JSON value. -/
def as_arr : Json → Option (List Json)
  | .arr a => some a
  | _ => none

/-- Object payload of a JSON value. -/
def as_obj : Json → Option (List (String × Json))
  | .obj fs => some fs
  | _ => none

/-- First binding of key `k` in a JSON object's field list. -/
def jlookup (fields : List (String × Json)) (k : String) : Option Json :=
  (fields.find? (fun p => p.1 == k)).map (fun p => p.2)

/-- Reading one record back from its JSON object (field-for-field). -/
def decode_job : Json → Option JobRecord
  | .obj fs => do
    let title ← (jlookup fs "title").bind as_str
    let company ← (jlookup fs "company").bind as_str
    let category ← (jlookup fs "category").bind as_str
    let description ← (jlookup fs "description").bind as_str
    let link ← (jlookup fs "link").bind as_str
    let is_remote ← (jlookup fs "is_remote").bind as_bool
    let is_own_pc_ok ← (jlookup fs "is_own_pc_ok").bind as_bool
    let scraped_at ← (jlookup fs "scraped_at").bind as_str
    let source ← (jlookup fs "source").bind as_str
    pure { title, company, category, description, link,
           is_remote, is_own_pc_ok, scraped_at, source }
  | _ => none

/-- Reading a whole jobs array back. -/
def decode_jobs : List Json → Option (List JobRecord)
  | [] => some []
  | j :: rest =>
    match decode_job j, decode_jobs rest with
    | some r, some rs => some (r :: rs)
    | _, _ => none

/-- Parsing the written document: recovers the jobs array and the
`metadata.total_jobs` count. -/
def parse_output (doc : Json) : Option (List JobRecord × Nat) :=
  match doc with
  | .obj fs => do
    let jobsJson ← jlookup fs "jobs"
    let jobsArr ← as_arr jobsJson
    let jobs ← decode_jobs jobsArr
    let metaJson ← jlookup fs "metadata"
    let metaFields ← as_obj metaJson
    let total ← (jlookup metaFields "total_jobs").bind as_num
    pure (jobs, total)
  | _ => none

/-! ## Concrete fixtures used to exercise the theorems -/

/-- A concrete record passing the filter. -/
def jobA : JobRecord :=
  { title := "a", company := "c", category := "k", description := "",
    link := "", is_remote := true, is_own_pc_ok := true,
    scraped_at := "t", source := "Reworker" }

/-- A concrete record failing the filter. -/
def jobB : JobRecord :=
  { jobA with title := "b", is_remote := false }

/-- Three scraped records none of which passes the filter. -/
def scraped3 : List JobRecord := [jobB, jobB, jobB]

/-- A document on which the first selector pattern finds nothing and the
second pattern matches twice. -/
def docA : String → List Nat := fun s =>
  if s = "[class*=\"card\"]" then [10, 20]
  else if s = "article" then [99]
  else []

/-- An element whose extracted description is exactly the three-character
continuation marker. -/
def elemDots : Element :=
  { title_class_text := none, heading_text := none, company_text := none,
    link_href := none, category_text := none, desc_text := some "...",
    full_text := "" }

/-- A 201-character description. -/
def longDesc : String := ⟨List.replicate 201 'a'⟩

/-- An element whose extracted description exceeds 200 characters. -/
def elemLong : Element :=
  { elemDots with desc_text := some longDesc }

/-- An element whose visible text mentions remote work and never mentions
loaner equipment. -/
def elemRemote : Element :=
  { elemDots with full_text := "在宅勤務 リモートOK" }

/-- File-system stub that accepts every write. -/
def write_ok : Json → Except String Unit := fun _ => Except.ok ()

/-- File-system stub that rejects every write. -/
def write_fail : Json → Except String Unit := fun _ => Except.error "disk full"

/-! ## Helper lemmas -/

/-- Every list ends with itself. -/
theorem endsWithCh_self (pat : List Char) : endsWithCh pat pat = true := by
  cases pat with
  | nil => rfl
  | cons a t => simp [endsWithCh]

/-- Appending `pat` always produces a list ending with `pat`. -/
theorem endsWithCh_append (pat l : List Char) : endsWithCh pat (l ++ pat) = true := by
  induction l with
  | nil => simpa using endsWithCh_self pat
  | cons a t ih => simp [endsWithCh, ih]

/-- The record built by `extract_job_details` classifies remoteness by the
remote-keyword scan over the lower-cased element text. -/
theorem extract_is_remote (e : Element) (now : String) :
    (extract_job_details e now).is_remote
      = remote_keywords.any (fun k => containsSub k (toLowerCh e.full_text.data)) := rfl

/-- The record built by `extract_job_details` classifies equipment by the
own-equipment scan or the absence of the loaner term. -/
theorem extract_is_own_pc (e : Element) (now : String) :
    (extract_job_details e now).is_own_pc_ok
      = (pc_keywords.any (fun k => containsSub k (toLowerCh e.full_text.data))
          || !containsSub loan_keyword (toLowerCh e.full_text.data)) := rfl

/-- The stored description is the truncated extracted description. -/
theorem extract_description (e : Element) (now : String) :
    (extract_job_details e now).description = truncStr (e.desc_text.getD "") := rfl

/-- Unfolding `truncStr` to the character level. -/
theorem truncStr_data (s : String) : (truncStr s).data = truncate200 s.data := rfl

/-- String length is the length of the character data. -/
theorem string_length_data (s : String) : s.length = s.data.length := rfl

/-- The continuation marker is three characters long. -/
theorem marker_length : marker.length = 3 := rfl

/-- The selector loop returns the result of the first matching pattern and
never looks past it: if `doc` first matches at index `i`, then any `doc'`
agreeing with `doc` up to index `i` produces that same element list. -/
theorem selectFirstMatch_first {α : Type} (sels : List String)
    (doc doc' : String → List α) (i : Nat) (hi : i < sels.length)
    (hbefore : ∀ j, j < i → doc (sels.getD j "") = [])
    (hmatch : doc (sels.getD i "") ≠ [])
    (hagree : ∀ j, j ≤ i → doc' (sels.getD j "") = doc (sels.getD j "")) :
    selectFirstMatch doc' sels = doc (sels.getD i "") := by
  induction sels generalizing i with
  | nil => simp at hi
  | cons s rest ih =>
    cases i with
    | zero =>
      have h0 : doc' s = doc s := by simpa using hagree 0 (Nat.le_refl 0)
      rw [List.getD_cons_zero] at hmatch ⊢
      cases hds : doc s with
      | nil => exact absurd hds hmatch
      | cons x xs => simp [selectFirstMatch, h0, hds]
    | succ i' =>
      have h0 : doc s = [] := by simpa using hbefore 0 (Nat.succ_pos i')
      have h0' : doc' s = [] := by simpa [h0] using hagree 0 (Nat.zero_le _)
      rw [List.getD_cons_succ]
      simp only [selectFirstMatch, h0']
      exact ih i' (by simpa using hi)
        (fun j hj => by simpa using hbefore (j + 1) (by omega))
        (by simpa using hmatch)
        (fun j hj => by simpa using hagree (j + 1) (by omega))

/-- Decoding inverts encoding on a single record. -/
theorem decode_encode (j : JobRecord) : decode_job (encode_job j) = some j := rfl

/-- Decoding inverts encoding on a whole jobs array. -/
theorem decode_jobs_encode (l : List JobRecord) :
    decode_jobs (l.map encode_job) = some l := by
  induction l with
  | nil => rfl
  | cons h t ih => simp [decode_jobs, decode_encode, ih]

/-- Parsing the output document recovers the filtered records and their
count. -/
theorem parse_roundtrip (l : List JobRecord) (now : String) :
    parse_output (output_data l now) = some (l, l.length) := by
  have h := decode_jobs_encode l
  show Option.bind (decode_jobs (l.map encode_job))
      (fun jobs => some (jobs, l.length)) = some (l, l.length)
  rw [h]
  rfl

/-! ## Claim theorems -/

/-- Claim C1: `filter_remote_jobs` returns exactly the records whose
`is_remote` and `is_own_pc_ok` fields are both true, as a subsequence of
the input (subset, order preserved, no deduplication or other change:
every doubly-true record keeps its full multiplicity). -/
theorem C1_filter_exact (jobs : List JobRecord) :
    List.Sublist (filter_remote_jobs jobs) jobs ∧
    (∀ r ∈ filter_remote_jobs jobs, r.is_remote = true ∧ r.is_own_pc_ok = true) ∧
    (∀ r : JobRecord, r.is_remote = true → r.is_own_pc_ok = true →
      (filter_remote_jobs jobs).count r = jobs.count r) := by
  refine ⟨List.filter_sublist jobs, ?_, ?_⟩
  · intro r hr
    have h := (List.mem_filter.mp hr).2
    simpa using h
  · intro r h1 h2
    simp only [filter_remote_jobs]
    exact List.count_filter (by simp [h1, h2])

/-- Witness for C1 at a two-record list with one passing record. -/
theorem C1_witness :
    (jobA.is_remote = true ∧ jobA.is_own_pc_ok = true) ∧
    (filter_remote_jobs [jobA, jobB]).count jobA = [jobA, jobB].count jobA :=
  ⟨(C1_filter_exact [jobA, jobB]).2.1 jobA (by decide),
   (C1_filter_exact [jobA, jobB]).2.2 jobA rfl rfl⟩

/-- Claim C2: with the default budget of 3 attempts, `get_page` returns
the first successful response with no error; each failed non-final
attempt `n` sleeps `2 ^ n` before the next attempt; and when all 3
attempts fail the final attempt re-raises the transport failure
(`FetchError`) without sleeping or retrying. -/
theorem C2_get_page_retry {ρ : Type} (e0 e1 e2 : FetchError) (r : ρ)
    (o1 o2 : Except FetchError ρ) :
    get_page [(Except.error e0 : Except FetchError ρ), Except.error e1, Except.error e2]
      = ⟨some (Except.error e2), [1, 2], 3⟩ ∧
    get_page [(Except.error e0 : Except FetchError ρ), Except.error e1, Except.ok r]
      = ⟨some (Except.ok r), [1, 2], 3⟩ ∧
    get_page [(Except.error e0 : Except FetchError ρ), Except.ok r, o1]
      = ⟨some (Except.ok r), [1], 2⟩ ∧
    get_page [(Except.ok r : Except FetchError ρ), o1, o2]
      = ⟨some (Except.ok r), [], 1⟩ :=
  ⟨rfl, rfl, rfl, rfl⟩

/-- Claim C3: on any document whose selector results agree with `doc` up
to the first pattern index `i` that matches, listing extraction returns
exactly the first matching pattern's elements — later patterns are never
consulted and elements of different patterns are never mixed. -/
theorem C3_first_pattern_wins {α : Type} (doc doc' : String → List α) (i : Nat)
    (hi : i < job_selectors.length)
    (hbefore : ∀ j, j < i → doc (job_selectors.getD j "") = [])
    (hmatch : doc (job_selectors.getD i "") ≠ [])
    (hagree : ∀ j, j ≤ i → doc' (job_selectors.getD j "") = doc (job_selectors.getD j "")) :
    extract_listing_elements doc = doc (job_selectors.getD i "") ∧
    extract_listing_elements doc' = doc (job_selectors.getD i "") :=
  ⟨selectFirstMatch_first job_selectors doc doc i hi hbefore hmatch (fun _ _ => rfl),
   selectFirstMatch_first job_selectors doc doc' i hi hbefore hmatch hagree⟩

/-- Witness for C3 at a document matching the second pattern only. -/
theorem C3_witness :
    extract_listing_elements docA = docA (job_selectors.getD 1 "") :=
  (C3_first_pattern_wins docA docA 1 (by decide)
    (fun j hj => by
      have hj0 : j = 0 := by omega
      subst hj0
      decide)
    (by decide)
    (fun _ _ => rfl)).1

/-- Claim C4 as stated is false: the stored description ends with the
continuation marker without the original exceeding 200 characters, when a
short description itself ends in the marker (e.g. the description
`"..."`). -/
theorem C4_counterexample :
    ¬ ∀ (e : Element) (now : String),
        (extract_job_details e now).description.length ≤ 203 ∧
        (endsWithCh marker (extract_job_details e now).description.data = true ↔
          200 < (e.desc_text.getD "").length) := by
  intro h
  have h1 := (h elemDots "t").2.mp (by decide)
  exact absurd h1 (by decide)

/-- Claim C4 (amended): the stored description has length at most 203; a
description longer than 200 characters is stored as its first 200
characters plus the marker (length exactly 203, ending in the marker); a
description of at most 200 characters is stored unchanged — so it ends in
the marker only when the original already did. -/
theorem C4_description_truncation (e : Element) (now : String) :
    (extract_job_details e now).description.length ≤ 203 ∧
    (200 < (e.desc_text.getD "").length →
      (extract_job_details e now).description.data
        = (e.desc_text.getD "").data.take 200 ++ marker ∧
      endsWithCh marker (extract_job_details e now).description.data = true ∧
      (extract_job_details e now).description.length = 203) ∧
    ((e.desc_text.getD "").length ≤ 200 →
      (extract_job_details e now).description = e.desc_text.getD "") := by
  have hlen : (e.desc_text.getD "").length = (e.desc_text.getD "").data.length := rfl
  refine ⟨?_, ?_, ?_⟩
  · rw [extract_description, string_length_data, truncStr_data, truncate200]
    by_cases h : 200 < (e.desc_text.getD "").data.length
    · rw [if_pos h, List.length_append, List.length_take, marker_length]
      omega
    · rw [if_neg h]
      omega
  · intro h
    rw [hlen] at h
    refine ⟨?_, ?_, ?_⟩
    · rw [extract_description, truncStr_data, truncate200, if_pos h]
    · rw [extract_description, truncStr_data, truncate200, if_pos h]
      exact endsWithCh_append marker _
    · rw [extract_description, string_length_data, truncStr_data, truncate200, if_pos h,
        List.length_append, List.length_take, marker_length]
      omega
  · intro h
    rw [hlen] at h
    have heq : truncate200 (e.desc_text.getD "").data = (e.desc_text.getD "").data := by
      rw [truncate200, if_neg (by omega)]
    rw [extract_description]
    show (⟨truncate200 (e.desc_text.getD "").data⟩ : String) = e.desc_text.getD ""
    rw [heq]

/-- Witness for C4 (amended) at a 201-character description and at the
marker-only description. -/
theorem C4_witness :
    endsWithCh marker (extract_job_details elemLong "t").description.data = true ∧
    (extract_job_details elemDots "t").description = elemDots.desc_text.getD "" :=
  ⟨((C4_description_truncation elemLong "t").2.1
      (by show 200 < (List.replicate 201 'a').length
          rw [List.length_replicate]
          omega)).2.1,
   (C4_description_truncation elemDots "t").2.2 (by decide)⟩

/-- Claim C5: on the primary path, `is_remote` is true iff the lower-cased
element text contains a remote-work keyword, and `is_own_pc_ok` is true
iff it contains an own-equipment keyword or lacks the loaner-equipment
term — so absence of any loaner-equipment mention alone makes
`is_own_pc_ok` true. -/
theorem C5_classification (e : Element) (now : String) :
    ((extract_job_details e now).is_remote = true ↔
      ∃ k ∈ remote_keywords, containsSub k (toLowerCh e.full_text.data) = true) ∧
    ((extract_job_details e now).is_own_pc_ok = true ↔
      (∃ k ∈ pc_keywords, containsSub k (toLowerCh e.full_text.data) = true) ∨
        containsSub loan_keyword (toLowerCh e.full_text.data) = false) ∧
    (containsSub loan_keyword (toLowerCh e.full_text.data) = false →
      (extract_job_details e now).is_own_pc_ok = true) := by
  refine ⟨?_, ?_, ?_⟩
  · rw [extract_is_remote]
    simp [List.any_eq_true]
  · rw [extract_is_own_pc]
    simp [List.any_eq_true]
  · intro h
    rw [extract_is_own_pc, h]
    simp

/-- Witness for C5 at an element with remote text and no loaner term. -/
theorem C5_witness :
    (extract_job_details elemRemote "t").is_own_pc_ok = true :=
  (C5_classification elemRemote "t").2.2 (by decide)

/-- Claim C6: when fewer than 3 records were scraped, exactly the 3 fixed
sample records are appended before filtering/serializing — all remote,
own-PC-OK, with distinct titles and companies and source `"Sample Data"`;
with 3 or more scraped records nothing is added. -/
theorem C6_sample_injection (scraped : List JobRecord) (now : String) :
    (scraped.length < 3 →
      run_records scraped now = scraped ++ sample_jobs now ∧
      (sample_jobs now).length = 3 ∧
      (∀ s ∈ sample_jobs now, s.is_remote = true ∧ s.is_own_pc_ok = true ∧
        s.source = "Sample Data") ∧
      ((sample_jobs now).map (fun s => s.title)).Nodup ∧
      ((sample_jobs now).map (fun s => s.company)).Nodup) ∧
    (3 ≤ scraped.length → run_records scraped now = scraped) := by
  constructor
  · intro h
    refine ⟨if_pos h, rfl, ?_, ?_, ?_⟩
    · intro s hs
      simp only [sample_jobs, List.mem_cons, List.not_mem_nil, or_false] at hs
      rcases hs with h1 | h1 | h1 <;> subst h1 <;> exact ⟨rfl, rfl, rfl⟩
    · show (["フルリモート Webエンジニア募集", "在宅ライター・コンテンツ作成",
             "リモート カスタマーサポート"] : List String).Nodup
      decide
    · show (["テックスタートアップ株式会社", "デジタルマーケティング株式会社",
             "グローバルテック合同会社"] : List String).Nodup
      decide
  · intro h
    exact if_neg (by omega)

/-- Witness for C6 at an empty scrape and at a three-record scrape. -/
theorem C6_witness :
    run_records [] "t" = [] ++ sample_jobs "t" ∧
    run_records scraped3 "t" = scraped3 :=
  ⟨((C6_sample_injection [] "t").1 (by decide)).1,
   (C6_sample_injection scraped3 "t").2 (by decide)⟩

/-- Claim C7: `save_to_json` returns the written file path when the write
succeeds, and signals the spec's `SerializeError` outcome — the logged
`None` failure result, never a path — when the write raises an I/O
error. -/
theorem C7_serialize_result (jobs : List JobRecord) (now filename : String)
    (write : Json → Except String Unit) :
    (write (output_data (filter_remote_jobs jobs) now) = Except.ok () →
      save_to_json jobs now filename write = some filename) ∧
    (∀ msg, write (output_data (filter_remote_jobs jobs) now) = Except.error msg →
      save_to_json jobs now filename write = none) := by
  constructor
  · intro h
    simp [save_to_json, h]
  · intro msg h
    simp [save_to_json, h]

/-- Witness for C7 with an accepting and a rejecting file system. -/
theorem C7_witness :
    save_to_json [] "t" "jobs.json" write_ok = some "jobs.json" ∧
    save_to_json [] "t" "jobs.json" write_fail = none :=
  ⟨(C7_serialize_result [] "t" "jobs.json" write_ok).1 rfl,
   (C7_serialize_result [] "t" "jobs.json" write_fail).2 "disk full" rfl⟩

/-- Claim C8: parsing the serialized document recovers a jobs array
identical field-for-field and in order to the retained records, and a
`metadata.total_jobs` equal to that array's length. -/
theorem C8_round_trip (retained : List JobRecord) (now : String) :
    parse_output (output_data retained now) = some (retained, retained.length) :=
  parse_roundtrip retained now

/-- Claim C9: with a retry budget of 0 (Python `range(retries)` is empty
for every non-positive budget, modelled by the empty outcome list),
`get_page` makes no attempt, sleeps never, raises nothing, and returns
`None`. -/
theorem C9_zero_retries {ε ρ : Type} :
    get_page ([] : List (Except ε ρ)) = ⟨none, [], 0⟩ := rfl

/-- Claim C10: sample injection looks only at the pre-filter count, so a
run scraping 3 or more records of which fewer than 3 survive the filter
adds no samples and serializes a jobs array of fewer than 3 entries
(possibly empty). -/
theorem C10_no_injection_post_filter (scraped : List JobRecord) (now : String)
    (h3 : 3 ≤ scraped.length) (hlt : (filter_remote_jobs scraped).length < 3) :
    run_records scraped now = scraped ∧
    parse_output (run_output scraped now)
      = some (filter_remote_jobs scraped, (filter_remote_jobs scraped).length) ∧
    (filter_remote_jobs scraped).length < 3 := by
  have hrr : run_records scraped now = scraped := if_neg (by omega)
  refine ⟨hrr, ?_, hlt⟩
  rw [run_output, hrr]
  exact parse_roundtrip _ _

/-- Witness for C10 at three scraped records none of which passes the
filter: the serialized jobs array is empty. -/
theorem C10_witness :
    run_records scraped3 "t" = scraped3 ∧
    parse_output (run_output scraped3 "t")
      = some (filter_remote_jobs scraped3, (filter_remote_jobs scraped3).length) ∧
    (filter_remote_jobs scraped3).length < 3 :=
  C10_no_injection_post_filter scraped3 "t" (by decide) (by decide)

end RemoteJobFinder
